import Mathlib

/-!
# LibTEE (metee), Windows back end: session life cycle and status mapping

A shallow embedding of `thirdparty/LibTEE/src/Windows/metee_win.c` together with the
public declarations of `thirdparty/LibTEE/include/metee.h`.

* A C pointer that may be `NULL` is an `Option` (`none` is `NULL`).
* The heap block behind `TEEHANDLE.handle` is owned by the session, so it is stored by
  value: `free` followed by `handle->handle = NULL` is the field becoming `none`.
* Every call that leaves the library (driver, kernel objects) is answered by the
  environment `Env`; the functions return, next to their status and the new session,
  the list of such calls in the order they were issued.
* `helpers.h` and `Public.h` are not part of the sources at hand.  What the functions
  use from them (`Win32ErrorToTee`, `SendIOCTL`, `BeginReadInternal`, ...,
  `__tee_init_handle`, `CANCEL_TIMEOUT`, the IOCTL codes, `GUID_DEVINTERFACE_HECI`)
  is a field of `Env`, so every theorem holds for whatever they are.
* `INIT_STATUS` (also from `helpers.h`) is overwritten on every path before it is read
  and therefore does not appear.  `FUNC_ENTRY`, `FUNC_EXIT` and `ERRPRINT` only log.
-/

namespace MeTee

/-! ## metee.h -/

/-- Status type of the API, `typedef uint16_t TEESTATUS`. -/
abbrev TEESTATUS := Nat

def TEE_ERROR_BASE : TEESTATUS := 0x0000
def TEE_SUCCESS : TEESTATUS := TEE_ERROR_BASE + 0
def TEE_INTERNAL_ERROR : TEESTATUS := TEE_ERROR_BASE + 1
def TEE_DEVICE_NOT_FOUND : TEESTATUS := TEE_ERROR_BASE + 2
def TEE_DEVICE_NOT_READY : TEESTATUS := TEE_ERROR_BASE + 3
def TEE_INVALID_PARAMETER : TEESTATUS := TEE_ERROR_BASE + 4
def TEE_UNABLE_TO_COMPLETE_OPERATION : TEESTATUS := TEE_ERROR_BASE + 5
def TEE_TIMEOUT : TEESTATUS := TEE_ERROR_BASE + 6
def TEE_NOTSUPPORTED : TEESTATUS := TEE_ERROR_BASE + 7
def TEE_CLIENT_NOT_FOUND : TEESTATUS := TEE_ERROR_BASE + 8
def TEE_BUSY : TEESTATUS := TEE_ERROR_BASE + 9
def TEE_DISCONNECTED : TEESTATUS := TEE_ERROR_BASE + 10
def TEE_INSUFFICIENT_BUFFER : TEESTATUS := TEE_ERROR_BASE + 11

/-- The macro `TEE_IS_SUCCESS(Status)`. -/
def TEE_IS_SUCCESS (Status : TEESTATUS) : Bool := Status % 2 ^ 16 == TEE_SUCCESS

/-! ## Windows scalar types and constants used by the file -/

abbrev DWORD := Nat
abbrev ULONG := Nat
/-- A kernel object handle; `INVALID_HANDLE_VALUE` is `(HANDLE)-1`. -/
abbrev HANDLE := Int
def INVALID_HANDLE_VALUE : HANDLE := -1
/-- The Windows wait bound `INFINITE`, `0xFFFFFFFF`. -/
def INFINITE : DWORD := 0xFFFFFFFF
def WAIT_OBJECT_0 : DWORD := 0
/-- A 128 bit GUID, as one number; `metee.h` has `#define UUID GUID`. -/
abbrev GUID := Nat
abbrev UUID := GUID
/-- The token of an asynchronous operation; `none` is `NULL`. -/
abbrev EVENTHANDLE := Option Nat
/-- A caller buffer `void *`: `none` is `NULL`, otherwise its address.  The library
never reads or writes the bytes itself, it only hands the pointer to the begin step. -/
abbrev Buffer := Option Nat
/-- The `TCHAR devicePath[MAX_PATH]` array filled by `GetDevicePath`. -/
abbrev DevicePath := List Nat
abbrev error_status_t := Nat

/-- The internal block `struct METEE_WIN_IMPL`, with the three members the file uses:
`impl_handle->handle`, `impl_handle->uuid`, `impl_handle->evt`. -/
structure METEE_WIN_IMPL where
  handle : HANDLE
  uuid : GUID
  evt : EVENTHANDLE
deriving DecidableEq, Repr

/-- The public session record `TEEHANDLE` of `metee.h`. -/
structure TEEHANDLE where
  handle : Option METEE_WIN_IMPL
  maxMsgLen : Nat
  protcolVer : Nat
deriving DecidableEq, Repr

/-- The public record `teeDriverVersion_t`. -/
structure teeDriverVersion_t where
  major : Nat
  minor : Nat
  hotfix : Nat
  build : Nat
deriving DecidableEq, Repr

/-- The packed record `struct HECI_VERSION` the version request fills. -/
structure HECI_VERSION where
  major : Nat
  minor : Nat
  hotfix : Nat
  build : Nat
deriving DecidableEq, Repr

/-- The reply record `FW_CLIENT` of the connect request. -/
structure FW_CLIENT where
  MaxMessageLength : Nat
  ProtocolVersion : Nat
deriving DecidableEq, Repr

/-! ## The environment -/

/-- What one `SendIOCTL` call leaves behind: its status, the value `GetLastError()` has
afterwards, and the content of the output buffer. -/
structure IoctlReply (α : Type) where
  status : TEESTATUS
  lastError : DWORD
  out : α

/-- A call that leaves the library. -/
inductive OsCall where
  | GetDevicePath (guid : GUID)
  | CreateFile (path : DevicePath)
  | CloseHandle (h : HANDLE)
  | SendIOCTL (h : HANDLE) (code : DWORD) (input : Option GUID)
  | BeginReadInternal (h : HANDLE) (buffer : Buffer) (len : ULONG)
  | EndReadInternal (h : HANDLE) (evt : EVENTHANDLE) (timeout : DWORD)
  | BeginWriteInternal (h : HANDLE) (buffer : Buffer) (len : ULONG)
  | EndWriteInternal (h : HANDLE) (evt : EVENTHANDLE) (timeout : DWORD)
  | CancelIo (h : HANDLE)
  | WaitForSingleObject (evt : EVENTHANDLE) (ms : DWORD)
deriving DecidableEq, Repr

/-- The answers of everything outside `metee_win.c` during one call of an API function. -/
structure Env where
  /-- Result of `malloc(sizeof(*impl_handle))`: `none` is `NULL`, `some g` is a fresh block whose
  bytes read as `g` (malloc does not clear memory). -/
  malloc : Option METEE_WIN_IMPL
  /-- The helper `__tee_init_handle` of `helpers.h`, applied to the public record. -/
  __tee_init_handle : TEEHANDLE → TEEHANDLE
  GUID_DEVINTERFACE_HECI : GUID
  GetDevicePath : GUID → TEESTATUS × DevicePath
  CreateFile : DevicePath → HANDLE
  IOCTL_TEEDRIVER_CONNECT_CLIENT : DWORD
  IOCTL_HECI_GET_VERSION : DWORD
  /-- The call `SendIOCTL` with the connect request: device, code, input GUID. -/
  SendIOCTL_connect : HANDLE → DWORD → GUID → IoctlReply FW_CLIENT
  /-- The call `SendIOCTL` with the version request: device, code (no input). -/
  SendIOCTL_version : HANDLE → DWORD → IoctlReply HECI_VERSION
  Win32ErrorToTee : DWORD → TEESTATUS
  BeginReadInternal : HANDLE → Buffer → ULONG → TEESTATUS × EVENTHANDLE
  /-- Completion step: status and the count it stores through the `LPDWORD`. -/
  EndReadInternal : HANDLE → EVENTHANDLE → DWORD → TEESTATUS × DWORD
  BeginWriteInternal : HANDLE → Buffer → ULONG → TEESTATUS × EVENTHANDLE
  EndWriteInternal : HANDLE → EVENTHANDLE → DWORD → TEESTATUS × DWORD
  /-- Whether `CancelIo` returns nonzero. -/
  CancelIo : HANDLE → Bool
  WaitForSingleObject : EVENTHANDLE → DWORD → DWORD
  CANCEL_TIMEOUT : DWORD

/-! ## The C runtime function used by the file -/

def EINVAL : error_status_t := 22
def ERANGE : error_status_t := 34
/-- The value of `sizeof(GUID)`; `sizeof(UUID)` is the same, `UUID` being `GUID`. -/
def sizeof_GUID : Nat := 16

/-- The C runtime function `memcpy_s(dest, destsz, src, count)` on an object holding a
GUID, for a destination pointer that is not `NULL`: `dest` is what the destination holds
before the call, `src` is `none` for a `NULL` source.  The value is the result code and
what the destination holds afterwards.  With `count` 0 nothing is done; a `NULL` source
gives `EINVAL` and a `destsz` smaller than `count` gives `ERANGE`, both with the
destination zero-filled; otherwise the source is copied and the result is 0. -/
def memcpy_s (dest : GUID) (destsz : Nat) (src : Option GUID) (count : Nat) :
    error_status_t × GUID :=
  if count = 0 then (0, dest)
  else
    match src with
    | none => (EINVAL, 0)
    | some s => if destsz < count then (ERANGE, 0) else (0, s)

/-! ## metee_win.c -/

/-- The inline helper `to_int`: `_h ? _h->handle : NULL`. -/
def to_int (_h : Option TEEHANDLE) : Option METEE_WIN_IMPL :=
  match _h with
  | some h => h.handle
  | none => none

/-- A store through `impl_handle->...`: the block behind `handle->handle` becomes `impl`. -/
def store_impl (handle : Option TEEHANDLE) (impl : METEE_WIN_IMPL) : Option TEEHANDLE :=
  handle.map fun h => { h with handle := some impl }

/-- Value of an API call that returns a status and may change the session. -/
structure CallResult where
  status : TEESTATUS
  handle : Option TEEHANDLE
  trace : List OsCall
deriving DecidableEq, Repr

/-- The `else` branch under the label `Cleanup` of `TeeInit`, taken when `status` is not
`TEE_SUCCESS`: `CloseHandle(deviceHandle)`, `free(impl_handle)` if it was allocated, and
`handle->handle = NULL` if `handle` is not `NULL`.  `deviceHandle` is still
`INVALID_HANDLE_VALUE` on every path that gets here. -/
def TeeInit_Cleanup_failed (status : TEESTATUS) (handle : Option TEEHANDLE)
    (calls : List OsCall) : CallResult :=
  { status := status
    handle := handle.map fun h => { h with handle := none }
    trace := calls ++ [OsCall.CloseHandle INVALID_HANDLE_VALUE] }

/-- The function `TeeInit`.  The member `uuid` of the internal block holds a GUID (it is
the `sizeof(GUID)` bytes input of the connect request in `TeeConnect`), so
`sizeof(impl_handle->uuid)` is `sizeof(GUID)`. -/
def TeeInit (env : Env) (handle : Option TEEHANDLE) (uuid : Option UUID)
    (device : Option GUID) : CallResult :=
  match uuid, handle with
  | some u, some h =>
    match env.malloc with
    | none => TeeInit_Cleanup_failed TEE_INTERNAL_ERROR (some h) []
    | some impl_handle =>
      -- __tee_init_handle(handle); handle->handle = impl_handle;
      let h1 : TEEHANDLE := { env.__tee_init_handle h with handle := some impl_handle }
      let currentUUID : GUID :=
        match device with
        | some d => d
        | none => env.GUID_DEVINTERFACE_HECI
      let status := (env.GetDevicePath currentUUID).1
      let devicePath := (env.GetDevicePath currentUUID).2
      if status ≠ 0 then
        TeeInit_Cleanup_failed status (some h1) [OsCall.GetDevicePath currentUUID]
      else
        let deviceHandle := env.CreateFile devicePath
        if deviceHandle = INVALID_HANDLE_VALUE then
          TeeInit_Cleanup_failed TEE_DEVICE_NOT_READY (some h1)
            [OsCall.GetDevicePath currentUUID, OsCall.CreateFile devicePath]
        else
          -- Cleanup with status == TEE_SUCCESS:
          -- memcpy_s(&impl_handle->uuid, sizeof(impl_handle->uuid), uuid, sizeof(UUID))
          let copied := memcpy_s impl_handle.uuid sizeof_GUID (some u) sizeof_GUID
          let result := copied.1
          { status := if result ≠ 0 then TEE_UNABLE_TO_COMPLETE_OPERATION else TEE_SUCCESS
            handle := some { h1 with
              handle := some { impl_handle with handle := deviceHandle, uuid := copied.2 } }
            trace := [OsCall.GetDevicePath currentUUID, OsCall.CreateFile devicePath] }
  | _, _ => TeeInit_Cleanup_failed TEE_INVALID_PARAMETER handle []

/-- The function `TeeConnect`. -/
def TeeConnect (env : Env) (handle : Option TEEHANDLE) : CallResult :=
  match to_int handle with
  | none => { status := TEE_INVALID_PARAMETER, handle := handle, trace := [] }
  | some impl_handle =>
    let reply := env.SendIOCTL_connect impl_handle.handle env.IOCTL_TEEDRIVER_CONNECT_CLIENT
      impl_handle.uuid
    let calls := [OsCall.SendIOCTL impl_handle.handle env.IOCTL_TEEDRIVER_CONNECT_CLIENT
      (some impl_handle.uuid)]
    if reply.status ≠ 0 then
      let err := reply.lastError
      let status := env.Win32ErrorToTee err
      { status := if status = TEE_INVALID_PARAMETER then TEE_CLIENT_NOT_FOUND else status
        handle := handle
        trace := calls }
    else
      let fwClient := reply.out
      { status := TEE_SUCCESS
        handle := handle.map fun h =>
          { h with maxMsgLen := fwClient.MaxMessageLength
                   protcolVer := fwClient.ProtocolVersion % 2 ^ 8 }
        trace := calls }

/-- Value of `TeeRead` and `TeeWrite`: as `CallResult`, and the count the completion step
stored through `(LPDWORD)pNumOfBytesRead` when that step was reached with a pointer that
is not `NULL`. -/
structure IoResult where
  status : TEESTATUS
  handle : Option TEEHANDLE
  stored : Option DWORD
  trace : List OsCall
deriving DecidableEq, Repr

/-- The statements under the label `Cleanup` of `TeeRead` and `TeeWrite`:
`if (impl_handle) impl_handle->evt = NULL;`. -/
def Io_Cleanup (handle : Option TEEHANDLE) : Option TEEHANDLE :=
  match to_int handle with
  | some impl_handle => store_impl handle { impl_handle with evt := none }
  | none => handle

/-- The function `TeeRead`.  `pNumOfBytesRead` tells whether the optional out pointer is
given; `bufferSize` is a `size_t`, `timeout` a `uint32_t`. -/
def TeeRead (env : Env) (handle : Option TEEHANDLE) (buffer : Buffer) (bufferSize : Nat)
    (pNumOfBytesRead : Bool) (timeout : Nat) : IoResult :=
  match to_int handle with
  | none =>
    { status := TEE_INVALID_PARAMETER, handle := Io_Cleanup handle, stored := none, trace := [] }
  | some impl_handle =>
    if buffer = none ∨ bufferSize = 0 then
      { status := TEE_INVALID_PARAMETER, handle := Io_Cleanup handle, stored := none,
        trace := [] }
    else
      -- (ULONG)bufferSize
      let len : ULONG := bufferSize % 2 ^ 32
      let begun := env.BeginReadInternal impl_handle.handle buffer len
      if begun.1 ≠ 0 then
        { status := begun.1, handle := Io_Cleanup handle, stored := none,
          trace := [OsCall.BeginReadInternal impl_handle.handle buffer len] }
      else
        let evt := begun.2
        -- impl_handle->evt = evt;
        let handle1 := store_impl handle { impl_handle with evt := evt }
        let timeout1 : DWORD := if timeout = 0 then INFINITE else timeout
        let ended := env.EndReadInternal impl_handle.handle evt timeout1
        { status := if ended.1 ≠ 0 then ended.1 else TEE_SUCCESS
          handle := Io_Cleanup handle1
          stored := if pNumOfBytesRead then some ended.2 else none
          trace := [OsCall.BeginReadInternal impl_handle.handle buffer len,
                    OsCall.EndReadInternal impl_handle.handle evt timeout1] }

/-- The function `TeeWrite`. -/
def TeeWrite (env : Env) (handle : Option TEEHANDLE) (buffer : Buffer) (bufferSize : Nat)
    (numberOfBytesWritten : Bool) (timeout : Nat) : IoResult :=
  match to_int handle with
  | none =>
    { status := TEE_INVALID_PARAMETER, handle := Io_Cleanup handle, stored := none, trace := [] }
  | some impl_handle =>
    if buffer = none ∨ bufferSize = 0 then
      { status := TEE_INVALID_PARAMETER, handle := Io_Cleanup handle, stored := none,
        trace := [] }
    else
      let len : ULONG := bufferSize % 2 ^ 32
      let begun := env.BeginWriteInternal impl_handle.handle buffer len
      if begun.1 ≠ 0 then
        { status := begun.1, handle := Io_Cleanup handle, stored := none,
          trace := [OsCall.BeginWriteInternal impl_handle.handle buffer len] }
      else
        let evt := begun.2
        let handle1 := store_impl handle { impl_handle with evt := evt }
        let timeout1 : DWORD := if timeout = 0 then INFINITE else timeout
        let ended := env.EndWriteInternal impl_handle.handle evt timeout1
        { status := if ended.1 ≠ 0 then ended.1 else TEE_SUCCESS
          handle := Io_Cleanup handle1
          stored := if numberOfBytesWritten then some ended.2 else none
          trace := [OsCall.BeginWriteInternal impl_handle.handle buffer len,
                    OsCall.EndWriteInternal impl_handle.handle evt timeout1] }

/-- Value of `TeeDisconnect` (a `VOID` function): the session afterwards and the calls. -/
structure DisconnectResult where
  handle : Option TEEHANDLE
  trace : List OsCall
deriving DecidableEq, Repr

/-- The function `TeeDisconnect`.  The value of `WaitForSingleObject` is only logged. -/
def TeeDisconnect (env : Env) (handle : Option TEEHANDLE) : DisconnectResult :=
  match to_int handle with
  | none => { handle := handle, trace := [] }
  | some impl_handle =>
    let waits : List OsCall :=
      if env.CancelIo impl_handle.handle then
        [OsCall.WaitForSingleObject impl_handle.evt env.CANCEL_TIMEOUT]
      else []
    { handle := handle.map fun h => { h with handle := none }
      trace := [OsCall.CancelIo impl_handle.handle] ++ waits
        ++ [OsCall.CloseHandle impl_handle.handle] }

/-- The function `TeeGetDeviceHandle`; `TEE_INVALID_DEVICE_HANDLE` is `((void*)0)`. -/
def TeeGetDeviceHandle (handle : Option TEEHANDLE) : HANDLE :=
  match to_int handle with
  | none => 0
  | some impl_handle => impl_handle.handle

/-- Value of `GetDriverVersion`: status, the caller's record afterwards, the calls. -/
structure VersionResult where
  status : TEESTATUS
  driverVersion : Option teeDriverVersion_t
  trace : List OsCall
deriving DecidableEq, Repr

/-- The function `GetDriverVersion`. -/
def GetDriverVersion (env : Env) (handle : Option TEEHANDLE)
    (driverVersion : Option teeDriverVersion_t) : VersionResult :=
  match to_int handle, driverVersion with
  | some impl_handle, some _ =>
    let reply := env.SendIOCTL_version impl_handle.handle env.IOCTL_HECI_GET_VERSION
    let calls := [OsCall.SendIOCTL impl_handle.handle env.IOCTL_HECI_GET_VERSION none]
    if reply.status ≠ 0 then
      let err := reply.lastError
      { status := env.Win32ErrorToTee err, driverVersion := driverVersion, trace := calls }
    else
      let ver := reply.out
      { status := TEE_SUCCESS
        driverVersion := some { major := ver.major, minor := ver.minor,
                                hotfix := ver.hotfix, build := ver.build }
        trace := calls }
  | _, _ => { status := TEE_INVALID_PARAMETER, driverVersion := driverVersion, trace := [] }

/-! ## Concrete environments used to run the functions -/

/-- An example translation table: `ERROR_INVALID_HANDLE` (6) is `TEE_INVALID_PARAMETER`,
`ERROR_BUSY` (170) is `TEE_BUSY`, everything else `TEE_INTERNAL_ERROR`. -/
def sampleWin32ErrorToTee (err : DWORD) : TEESTATUS :=
  if err = 6 then TEE_INVALID_PARAMETER
  else if err = 170 then TEE_BUSY
  else TEE_INTERNAL_ERROR

/-- A machine on which every request succeeds.  `malloc` hands out a block whose bytes are
left over from an earlier use: its `evt` member reads as 57005. -/
def envResponsive : Env where
  malloc := some { handle := 0, uuid := 0, evt := some 57005 }
  __tee_init_handle := fun _ => { handle := none, maxMsgLen := 0, protcolVer := 0 }
  GUID_DEVINTERFACE_HECI := 1
  GetDevicePath := fun _ => (0, [104, 101, 99, 105])
  CreateFile := fun _ => 5
  IOCTL_TEEDRIVER_CONNECT_CLIENT := 1
  IOCTL_HECI_GET_VERSION := 2
  SendIOCTL_connect := fun _ _ _ =>
    { status := 0, lastError := 0, out := { MaxMessageLength := 512, ProtocolVersion := 1 } }
  SendIOCTL_version := fun _ _ =>
    { status := 0, lastError := 0, out := { major := 1, minor := 2, hotfix := 3, build := 4 } }
  Win32ErrorToTee := sampleWin32ErrorToTee
  BeginReadInternal := fun _ _ _ => (0, some 9)
  EndReadInternal := fun _ _ _ => (0, 3)
  BeginWriteInternal := fun _ _ _ => (0, some 9)
  EndWriteInternal := fun _ _ _ => (0, 3)
  CancelIo := fun _ => true
  WaitForSingleObject := fun _ _ => WAIT_OBJECT_0
  CANCEL_TIMEOUT := 5000

/-- As `envResponsive`, but both control requests fail and leave `err` as last error. -/
def envIoctlFails (err : DWORD) : Env :=
  { envResponsive with
    SendIOCTL_connect := fun _ _ _ =>
      { status := TEE_INTERNAL_ERROR, lastError := err,
        out := { MaxMessageLength := 0, ProtocolVersion := 0 } }
    SendIOCTL_version := fun _ _ =>
      { status := TEE_INTERNAL_ERROR, lastError := err,
        out := { major := 0, minor := 0, hotfix := 0, build := 0 } } }

/-- As `envResponsive`, but the device cannot be opened: `CreateFile` returns
`INVALID_HANDLE_VALUE`. -/
def envOpenFails : Env :=
  { envResponsive with CreateFile := fun _ => INVALID_HANDLE_VALUE }

/-- A caller's session record before `TeeInit`, `TEEHANDLE_ZERO`. -/
def TEEHANDLE_ZERO : TEEHANDLE := { handle := none, maxMsgLen := 0, protcolVer := 0 }

/-- A session with an open device (handle 5), client 7, nothing pending. -/
def sessionOpen : TEEHANDLE :=
  { handle := some { handle := 5, uuid := 7, evt := none }, maxMsgLen := 0, protcolVer := 0 }

/-- The transfer length handed to the device: the `len` argument of the first begin call
among `calls`, if there is one. -/
def transferLength (calls : List OsCall) : Option ULONG :=
  calls.findSome? fun c =>
    match c with
    | OsCall.BeginReadInternal _ _ len => some len
    | OsCall.BeginWriteInternal _ _ len => some len
    | _ => none

/-- The session `TeeInit` produces on the responsive machine from a zeroed record, client
UUID 7 and the default device: initialized, `TeeConnect` not called. -/
def sessionAfterInit : Option TEEHANDLE :=
  (TeeInit envResponsive (some TEEHANDLE_ZERO) (some 7) none).handle

/-! ## Theorems -/

/-- The validation branch of `TeeRead`. -/
theorem TeeRead_of_invalid (env : Env) (handle : Option TEEHANDLE) (buffer : Buffer)
    (bufferSize : Nat) (p : Bool) (timeout : Nat)
    (hbad : buffer = none ∨ bufferSize = 0 ∨ to_int handle = none) :
    TeeRead env handle buffer bufferSize p timeout =
      { status := TEE_INVALID_PARAMETER, handle := Io_Cleanup handle, stored := none,
        trace := [] } := by
  unfold TeeRead
  cases hi : to_int handle with
  | none => rfl
  | some impl =>
    have hor : buffer = none ∨ bufferSize = 0 := by
      rcases hbad with h | h | h
      · exact Or.inl h
      · exact Or.inr h
      · rw [hi] at h; cases h
    simp only [if_pos hor]

/-- The validation branch of `TeeWrite`. -/
theorem TeeWrite_of_invalid (env : Env) (handle : Option TEEHANDLE) (buffer : Buffer)
    (bufferSize : Nat) (p : Bool) (timeout : Nat)
    (hbad : buffer = none ∨ bufferSize = 0 ∨ to_int handle = none) :
    TeeWrite env handle buffer bufferSize p timeout =
      { status := TEE_INVALID_PARAMETER, handle := Io_Cleanup handle, stored := none,
        trace := [] } := by
  unfold TeeWrite
  cases hi : to_int handle with
  | none => rfl
  | some impl =>
    have hor : buffer = none ∨ bufferSize = 0 := by
      rcases hbad with h | h | h
      · exact Or.inl h
      · exact Or.inr h
      · rw [hi] at h; cases h
    simp only [if_pos hor]

/-- The branch of `TeeRead` whose begin step fails. -/
theorem TeeRead_of_begin_failed (env : Env) (handle : Option TEEHANDLE)
    (impl : METEE_WIN_IMPL) (buffer : Buffer) (bufferSize : Nat) (p : Bool) (timeout : Nat)
    (hi : to_int handle = some impl) (hb : buffer ≠ none) (hs : bufferSize ≠ 0)
    (hbegin : (env.BeginReadInternal impl.handle buffer (bufferSize % 2 ^ 32)).1 ≠ 0) :
    TeeRead env handle buffer bufferSize p timeout =
      { status := (env.BeginReadInternal impl.handle buffer (bufferSize % 2 ^ 32)).1
        handle := Io_Cleanup handle, stored := none
        trace := [OsCall.BeginReadInternal impl.handle buffer (bufferSize % 2 ^ 32)] } := by
  have hor : ¬ (buffer = none ∨ bufferSize = 0) := by
    rintro (h | h)
    · exact hb h
    · exact hs h
  simp only [TeeRead, hi, if_neg hor, if_pos hbegin]

/-- The branch of `TeeWrite` whose begin step fails. -/
theorem TeeWrite_of_begin_failed (env : Env) (handle : Option TEEHANDLE)
    (impl : METEE_WIN_IMPL) (buffer : Buffer) (bufferSize : Nat) (p : Bool) (timeout : Nat)
    (hi : to_int handle = some impl) (hb : buffer ≠ none) (hs : bufferSize ≠ 0)
    (hbegin : (env.BeginWriteInternal impl.handle buffer (bufferSize % 2 ^ 32)).1 ≠ 0) :
    TeeWrite env handle buffer bufferSize p timeout =
      { status := (env.BeginWriteInternal impl.handle buffer (bufferSize % 2 ^ 32)).1
        handle := Io_Cleanup handle, stored := none
        trace := [OsCall.BeginWriteInternal impl.handle buffer (bufferSize % 2 ^ 32)] } := by
  have hor : ¬ (buffer = none ∨ bufferSize = 0) := by
    rintro (h | h)
    · exact hb h
    · exact hs h
  simp only [TeeWrite, hi, if_neg hor, if_pos hbegin]

/-- The branch of `TeeRead` whose begin step succeeds. -/
theorem TeeRead_of_begun (env : Env) (handle : Option TEEHANDLE)
    (impl : METEE_WIN_IMPL) (buffer : Buffer) (bufferSize : Nat) (p : Bool) (timeout : Nat)
    (hi : to_int handle = some impl) (hb : buffer ≠ none) (hs : bufferSize ≠ 0)
    (hbegin : (env.BeginReadInternal impl.handle buffer (bufferSize % 2 ^ 32)).1 = 0) :
    TeeRead env handle buffer bufferSize p timeout =
      { status :=
          if (env.EndReadInternal impl.handle
              (env.BeginReadInternal impl.handle buffer (bufferSize % 2 ^ 32)).2
              (if timeout = 0 then INFINITE else timeout)).1 ≠ 0
          then (env.EndReadInternal impl.handle
              (env.BeginReadInternal impl.handle buffer (bufferSize % 2 ^ 32)).2
              (if timeout = 0 then INFINITE else timeout)).1
          else TEE_SUCCESS
        handle := Io_Cleanup (store_impl handle { impl with
          evt := (env.BeginReadInternal impl.handle buffer (bufferSize % 2 ^ 32)).2 })
        stored :=
          if p then some (env.EndReadInternal impl.handle
              (env.BeginReadInternal impl.handle buffer (bufferSize % 2 ^ 32)).2
              (if timeout = 0 then INFINITE else timeout)).2
          else none
        trace := [OsCall.BeginReadInternal impl.handle buffer (bufferSize % 2 ^ 32),
          OsCall.EndReadInternal impl.handle
            (env.BeginReadInternal impl.handle buffer (bufferSize % 2 ^ 32)).2
            (if timeout = 0 then INFINITE else timeout)] } := by
  have hor : ¬ (buffer = none ∨ bufferSize = 0) := by
    rintro (h | h)
    · exact hb h
    · exact hs h
  have hnb : ¬ (env.BeginReadInternal impl.handle buffer (bufferSize % 2 ^ 32)).1 ≠ 0 :=
    fun h => h hbegin
  simp only [TeeRead, hi, if_neg hor, if_neg hnb]

/-- The branch of `TeeWrite` whose begin step succeeds. -/
theorem TeeWrite_of_begun (env : Env) (handle : Option TEEHANDLE)
    (impl : METEE_WIN_IMPL) (buffer : Buffer) (bufferSize : Nat) (p : Bool) (timeout : Nat)
    (hi : to_int handle = some impl) (hb : buffer ≠ none) (hs : bufferSize ≠ 0)
    (hbegin : (env.BeginWriteInternal impl.handle buffer (bufferSize % 2 ^ 32)).1 = 0) :
    TeeWrite env handle buffer bufferSize p timeout =
      { status :=
          if (env.EndWriteInternal impl.handle
              (env.BeginWriteInternal impl.handle buffer (bufferSize % 2 ^ 32)).2
              (if timeout = 0 then INFINITE else timeout)).1 ≠ 0
          then (env.EndWriteInternal impl.handle
              (env.BeginWriteInternal impl.handle buffer (bufferSize % 2 ^ 32)).2
              (if timeout = 0 then INFINITE else timeout)).1
          else TEE_SUCCESS
        handle := Io_Cleanup (store_impl handle { impl with
          evt := (env.BeginWriteInternal impl.handle buffer (bufferSize % 2 ^ 32)).2 })
        stored :=
          if p then some (env.EndWriteInternal impl.handle
              (env.BeginWriteInternal impl.handle buffer (bufferSize % 2 ^ 32)).2
              (if timeout = 0 then INFINITE else timeout)).2
          else none
        trace := [OsCall.BeginWriteInternal impl.handle buffer (bufferSize % 2 ^ 32),
          OsCall.EndWriteInternal impl.handle
            (env.BeginWriteInternal impl.handle buffer (bufferSize % 2 ^ 32)).2
            (if timeout = 0 then INFINITE else timeout)] } := by
  have hor : ¬ (buffer = none ∨ bufferSize = 0) := by
    rintro (h | h)
    · exact hb h
    · exact hs h
  have hnb : ¬ (env.BeginWriteInternal impl.handle buffer (bufferSize % 2 ^ 32)).1 ≠ 0 :=
    fun h => h hbegin
  simp only [TeeWrite, hi, if_neg hor, if_neg hnb]

/-- C8.  `TeeInit` called with an absent UUID returns `TEE_INVALID_PARAMETER`, for every
session argument (absent or present, in any state) and every value of the optional
device argument. -/
theorem TeeInit_absent_uuid (env : Env) (handle : Option TEEHANDLE) (device : Option GUID) :
    (TeeInit env handle none device).status = TEE_INVALID_PARAMETER := by
  cases handle <;> rfl

/-- C1.  On a non-null session whose connect control request (the request `TeeConnect`
issues on the device handle of the session's internal block, carrying its UUID) fails
and leaves OS error `e`, `TeeConnect` returns `TEE_CLIENT_NOT_FOUND` if the generic
translation of `e` is `TEE_INVALID_PARAMETER`, returns the generic translation of `e`
otherwise, and the session (in particular `maxMsgLen` and `protcolVer`) is what it was
before the call. -/
theorem TeeConnect_request_failed (env : Env) (h : TEEHANDLE) (impl : METEE_WIN_IMPL)
    (e : DWORD) (hi : h.handle = some impl)
    (hfail : (env.SendIOCTL_connect impl.handle env.IOCTL_TEEDRIVER_CONNECT_CLIENT
      impl.uuid).status ≠ 0)
    (herr : (env.SendIOCTL_connect impl.handle env.IOCTL_TEEDRIVER_CONNECT_CLIENT
      impl.uuid).lastError = e) :
    (env.Win32ErrorToTee e = TEE_INVALID_PARAMETER →
        (TeeConnect env (some h)).status = TEE_CLIENT_NOT_FOUND) ∧
    (env.Win32ErrorToTee e ≠ TEE_INVALID_PARAMETER →
        (TeeConnect env (some h)).status = env.Win32ErrorToTee e) ∧
    (TeeConnect env (some h)).handle = some h ∧
    (TeeConnect env (some h)).handle.map TEEHANDLE.maxMsgLen = some h.maxMsgLen ∧
    (TeeConnect env (some h)).handle.map TEEHANDLE.protcolVer = some h.protcolVer ∧
    (TeeConnect env (some h)).trace =
      [OsCall.SendIOCTL impl.handle env.IOCTL_TEEDRIVER_CONNECT_CLIENT (some impl.uuid)] := by
  subst herr
  have hs : (TeeConnect env (some h)) =
      { status := if env.Win32ErrorToTee (env.SendIOCTL_connect impl.handle
            env.IOCTL_TEEDRIVER_CONNECT_CLIENT impl.uuid).lastError = TEE_INVALID_PARAMETER
          then TEE_CLIENT_NOT_FOUND
          else env.Win32ErrorToTee (env.SendIOCTL_connect impl.handle
            env.IOCTL_TEEDRIVER_CONNECT_CLIENT impl.uuid).lastError
        handle := some h
        trace := [OsCall.SendIOCTL impl.handle env.IOCTL_TEEDRIVER_CONNECT_CLIENT
          (some impl.uuid)] } := by
    simp only [TeeConnect, to_int, hi]
    rw [if_pos hfail]
  rw [hs]
  refine ⟨fun ht => by simp [ht], fun ht => by simp [ht], rfl, rfl, rfl, rfl⟩

/-- Witness of C1: the driver answers the connect request with `ERROR_INVALID_HANDLE`. -/
theorem TeeConnect_request_failed_witness :
    (TeeConnect (envIoctlFails 6) (some sessionOpen)).status = TEE_CLIENT_NOT_FOUND ∧
    (TeeConnect (envIoctlFails 6) (some sessionOpen)).handle = some sessionOpen :=
  ⟨(TeeConnect_request_failed (envIoctlFails 6) sessionOpen
      { handle := 5, uuid := 7, evt := none } 6 rfl (by decide) rfl).1 (by decide),
   (TeeConnect_request_failed (envIoctlFails 6) sessionOpen
      { handle := 5, uuid := 7, evt := none } 6 rfl (by decide) rfl).2.2.1⟩

/-- C9.  `GetDriverVersion` on an initialized session with an output record: when the
version control request fails and leaves OS error `e`, the status is exactly the generic
translation of `e` (no remap: `TEE_INVALID_PARAMETER` stays `TEE_INVALID_PARAMETER`) and
the caller's record is unchanged; when the request succeeds the status is `TEE_SUCCESS`
and the record holds the driver's four fields. -/
theorem GetDriverVersion_translates_without_remap (env : Env) (handle : Option TEEHANDLE)
    (impl : METEE_WIN_IMPL) (v : teeDriverVersion_t) (hi : to_int handle = some impl) :
    ((env.SendIOCTL_version impl.handle env.IOCTL_HECI_GET_VERSION).status ≠ 0 →
      (GetDriverVersion env handle (some v)).status =
        env.Win32ErrorToTee
          (env.SendIOCTL_version impl.handle env.IOCTL_HECI_GET_VERSION).lastError ∧
      (env.Win32ErrorToTee
          (env.SendIOCTL_version impl.handle env.IOCTL_HECI_GET_VERSION).lastError =
            TEE_INVALID_PARAMETER →
        (GetDriverVersion env handle (some v)).status = TEE_INVALID_PARAMETER) ∧
      (GetDriverVersion env handle (some v)).driverVersion = some v) ∧
    ((env.SendIOCTL_version impl.handle env.IOCTL_HECI_GET_VERSION).status = 0 →
      (GetDriverVersion env handle (some v)).status = TEE_SUCCESS ∧
      (GetDriverVersion env handle (some v)).driverVersion = some
        { major := (env.SendIOCTL_version impl.handle env.IOCTL_HECI_GET_VERSION).out.major
          minor := (env.SendIOCTL_version impl.handle env.IOCTL_HECI_GET_VERSION).out.minor
          hotfix := (env.SendIOCTL_version impl.handle env.IOCTL_HECI_GET_VERSION).out.hotfix
          build := (env.SendIOCTL_version impl.handle env.IOCTL_HECI_GET_VERSION).out.build }) := by
  constructor
  · intro hfail
    have hs : GetDriverVersion env handle (some v) =
        { status := env.Win32ErrorToTee
            (env.SendIOCTL_version impl.handle env.IOCTL_HECI_GET_VERSION).lastError
          driverVersion := some v
          trace := [OsCall.SendIOCTL impl.handle env.IOCTL_HECI_GET_VERSION none] } := by
      simp only [GetDriverVersion, hi]
      rw [if_pos hfail]
    rw [hs]
    exact ⟨rfl, fun ht => ht, rfl⟩
  · intro hok
    simp only [GetDriverVersion, hi]
    rw [if_neg (by simpa using hok)]
    exact ⟨rfl, rfl⟩

/-- Witness of C9: the version request fails with `ERROR_INVALID_HANDLE`, and the status
is `TEE_INVALID_PARAMETER`, not `TEE_CLIENT_NOT_FOUND`. -/
theorem GetDriverVersion_translates_without_remap_witness :
    to_int (some sessionOpen) = some { handle := 5, uuid := 7, evt := none } ∧
    (GetDriverVersion (envIoctlFails 6) (some sessionOpen)
      (some { major := 9, minor := 9, hotfix := 9, build := 9 })).status =
        TEE_INVALID_PARAMETER ∧
    (GetDriverVersion (envIoctlFails 6) (some sessionOpen)
      (some { major := 9, minor := 9, hotfix := 9, build := 9 })).driverVersion =
        some { major := 9, minor := 9, hotfix := 9, build := 9 } :=
  ⟨rfl,
   ((GetDriverVersion_translates_without_remap (envIoctlFails 6) (some sessionOpen)
      { handle := 5, uuid := 7, evt := none }
      { major := 9, minor := 9, hotfix := 9, build := 9 } rfl).1 (by decide)).1,
   ((GetDriverVersion_translates_without_remap (envIoctlFails 6) (some sessionOpen)
      { handle := 5, uuid := 7, evt := none }
      { major := 9, minor := 9, hotfix := 9, build := 9 } rfl).1 (by decide)).2.2⟩

/-- C7.  `TeeRead` and `TeeWrite` with valid parameters whose begin step succeeds hand
the completion step the wait bound `INFINITE` when the caller's timeout is 0 and exactly
the caller's timeout when it is nonzero; so with timeout 0 the call returns `TEE_TIMEOUT`
only if the completion step, called with the bound `INFINITE`, reports `TEE_TIMEOUT`. -/
theorem Tee_io_wait_bound (env : Env) (handle : Option TEEHANDLE) (impl : METEE_WIN_IMPL)
    (buffer : Buffer) (bufferSize : Nat) (p : Bool) (timeout : Nat)
    (hi : to_int handle = some impl) (hb : buffer ≠ none) (hs : bufferSize ≠ 0) :
    ((env.BeginReadInternal impl.handle buffer (bufferSize % 2 ^ 32)).1 = 0 →
      (timeout = 0 → (TeeRead env handle buffer bufferSize p timeout).trace =
        [OsCall.BeginReadInternal impl.handle buffer (bufferSize % 2 ^ 32),
         OsCall.EndReadInternal impl.handle
          (env.BeginReadInternal impl.handle buffer (bufferSize % 2 ^ 32)).2 INFINITE]) ∧
      (timeout ≠ 0 → (TeeRead env handle buffer bufferSize p timeout).trace =
        [OsCall.BeginReadInternal impl.handle buffer (bufferSize % 2 ^ 32),
         OsCall.EndReadInternal impl.handle
          (env.BeginReadInternal impl.handle buffer (bufferSize % 2 ^ 32)).2 timeout]) ∧
      (timeout = 0 → (TeeRead env handle buffer bufferSize p timeout).status = TEE_TIMEOUT →
        (env.EndReadInternal impl.handle
          (env.BeginReadInternal impl.handle buffer (bufferSize % 2 ^ 32)).2 INFINITE).1 =
            TEE_TIMEOUT)) ∧
    ((env.BeginWriteInternal impl.handle buffer (bufferSize % 2 ^ 32)).1 = 0 →
      (timeout = 0 → (TeeWrite env handle buffer bufferSize p timeout).trace =
        [OsCall.BeginWriteInternal impl.handle buffer (bufferSize % 2 ^ 32),
         OsCall.EndWriteInternal impl.handle
          (env.BeginWriteInternal impl.handle buffer (bufferSize % 2 ^ 32)).2 INFINITE]) ∧
      (timeout ≠ 0 → (TeeWrite env handle buffer bufferSize p timeout).trace =
        [OsCall.BeginWriteInternal impl.handle buffer (bufferSize % 2 ^ 32),
         OsCall.EndWriteInternal impl.handle
          (env.BeginWriteInternal impl.handle buffer (bufferSize % 2 ^ 32)).2 timeout]) ∧
      (timeout = 0 → (TeeWrite env handle buffer bufferSize p timeout).status = TEE_TIMEOUT →
        (env.EndWriteInternal impl.handle
          (env.BeginWriteInternal impl.handle buffer (bufferSize % 2 ^ 32)).2 INFINITE).1 =
            TEE_TIMEOUT)) := by
  constructor
  · intro hbegin
    rw [TeeRead_of_begun env handle impl buffer bufferSize p timeout hi hb hs hbegin]
    refine ⟨fun h0 => by simp only [if_pos h0], fun h0 => by simp only [if_neg h0], ?_⟩
    intro h0 hst
    simp only [if_pos h0] at hst
    by_cases hend : (env.EndReadInternal impl.handle
        (env.BeginReadInternal impl.handle buffer (bufferSize % 2 ^ 32)).2 INFINITE).1 ≠ 0
    · rw [if_pos hend] at hst
      exact hst
    · rw [if_neg hend] at hst
      exact absurd hst (by decide)
  · intro hbegin
    rw [TeeWrite_of_begun env handle impl buffer bufferSize p timeout hi hb hs hbegin]
    refine ⟨fun h0 => by simp only [if_pos h0], fun h0 => by simp only [if_neg h0], ?_⟩
    intro h0 hst
    simp only [if_pos h0] at hst
    by_cases hend : (env.EndWriteInternal impl.handle
        (env.BeginWriteInternal impl.handle buffer (bufferSize % 2 ^ 32)).2 INFINITE).1 ≠ 0
    · rw [if_pos hend] at hst
      exact hst
    · rw [if_neg hend] at hst
      exact absurd hst (by decide)

/-- Witness of C7: a read of 16 bytes with timeout 0 on an open session waits with the
bound `INFINITE` (4294967295). -/
theorem Tee_io_wait_bound_witness :
    (TeeRead envResponsive (some sessionOpen) (some 4096) 16 true 0).trace =
      [OsCall.BeginReadInternal 5 (some 4096) 16,
       OsCall.EndReadInternal 5 (some 9) 4294967295] :=
  ((Tee_io_wait_bound envResponsive (some sessionOpen)
      { handle := 5, uuid := 7, evt := none } (some 4096) 16 true 0 rfl
      (by decide) (by decide)).1 rfl).1 rfl

/-- C10.  With a 64 bit `size_t`, `TeeRead` and `TeeWrite` validate the untruncated
`bufferSize` against 0 and hand the device the transfer length `bufferSize mod 2^32`:
that length equals `bufferSize` exactly when `bufferSize < 2^32`, and for every nonzero
multiple of `2^32` validation passes and a transfer of length 0 is requested. -/
theorem Tee_io_length_truncated (env : Env) (handle : Option TEEHANDLE)
    (impl : METEE_WIN_IMPL) (buffer : Buffer) (bufferSize : Nat) (p : Bool) (timeout : Nat)
    (_hsz : bufferSize < 2 ^ 64)
    (hi : to_int handle = some impl) (hb : buffer ≠ none) (hs : bufferSize ≠ 0) :
    transferLength (TeeRead env handle buffer bufferSize p timeout).trace =
      some (bufferSize % 2 ^ 32) ∧
    transferLength (TeeWrite env handle buffer bufferSize p timeout).trace =
      some (bufferSize % 2 ^ 32) ∧
    (transferLength (TeeRead env handle buffer bufferSize p timeout).trace = some bufferSize ↔
      bufferSize < 2 ^ 32) ∧
    (transferLength (TeeWrite env handle buffer bufferSize p timeout).trace = some bufferSize ↔
      bufferSize < 2 ^ 32) ∧
    (2 ^ 32 ∣ bufferSize →
      transferLength (TeeRead env handle buffer bufferSize p timeout).trace = some 0 ∧
      transferLength (TeeWrite env handle buffer bufferSize p timeout).trace = some 0) := by
  have hr : transferLength (TeeRead env handle buffer bufferSize p timeout).trace =
      some (bufferSize % 2 ^ 32) := by
    by_cases hbegin : (env.BeginReadInternal impl.handle buffer (bufferSize % 2 ^ 32)).1 = 0
    · rw [TeeRead_of_begun env handle impl buffer bufferSize p timeout hi hb hs hbegin]
      rfl
    · rw [TeeRead_of_begin_failed env handle impl buffer bufferSize p timeout hi hb hs hbegin]
      rfl
  have hw : transferLength (TeeWrite env handle buffer bufferSize p timeout).trace =
      some (bufferSize % 2 ^ 32) := by
    by_cases hbegin : (env.BeginWriteInternal impl.handle buffer (bufferSize % 2 ^ 32)).1 = 0
    · rw [TeeWrite_of_begun env handle impl buffer bufferSize p timeout hi hb hs hbegin]
      rfl
    · rw [TeeWrite_of_begin_failed env handle impl buffer bufferSize p timeout hi hb hs hbegin]
      rfl
  have hiff : bufferSize % 2 ^ 32 = bufferSize ↔ bufferSize < 2 ^ 32 := by
    constructor
    · intro h
      rw [← h]
      exact Nat.mod_lt _ (by norm_num)
    · exact Nat.mod_eq_of_lt
  refine ⟨hr, hw, ?_, ?_, ?_⟩
  · rw [hr, Option.some_inj]
    exact hiff
  · rw [hw, Option.some_inj]
    exact hiff
  · intro hd
    rw [hr, hw, Nat.mod_eq_zero_of_dvd hd]
    exact ⟨rfl, rfl⟩

/-- Witness of C10: `bufferSize = 2^32` passes validation and requests 0 bytes. -/
theorem Tee_io_length_truncated_witness :
    (4294967296 : Nat) ≠ 0 ∧
    transferLength (TeeRead envResponsive (some sessionOpen) (some 4096) 4294967296
      true 1000).trace = some 0 ∧
    transferLength (TeeWrite envResponsive (some sessionOpen) (some 4096) 4294967296
      true 1000).trace = some 0 :=
  ⟨by decide,
   (Tee_io_length_truncated envResponsive (some sessionOpen)
      { handle := 5, uuid := 7, evt := none } (some 4096) 4294967296 true 1000
      (by norm_num) rfl (by decide) (by decide)).2.2.2.2 (by norm_num)⟩

/-- C4.  `TeeDisconnect` leaves the internal handle absent whatever the cancel and wait
steps answer; on a session whose internal handle is already absent it issues no call at
all and leaves the session unchanged; hence a second `TeeDisconnect` (under any answers)
issues no call and yields the same session as the first alone. -/
theorem TeeDisconnect_releases_and_idempotent (env env2 : Env)
    (handle : Option TEEHANDLE) :
    to_int (TeeDisconnect env handle).handle = none ∧
    (to_int handle = none → TeeDisconnect env handle = { handle := handle, trace := [] }) ∧
    TeeDisconnect env2 (TeeDisconnect env handle).handle =
      { handle := (TeeDisconnect env handle).handle, trace := [] } := by
  have h1 : ∀ (e : Env) (s : Option TEEHANDLE), to_int s = none →
      TeeDisconnect e s = { handle := s, trace := [] } := by
    intro e s hs
    simp only [TeeDisconnect, hs]
  have h2 : to_int (TeeDisconnect env handle).handle = none := by
    cases handle with
    | none => rfl
    | some h =>
      cases hh : h.handle with
      | none => simp [TeeDisconnect, to_int, hh]
      | some impl => simp [TeeDisconnect, to_int, hh]
  exact ⟨h2, h1 env handle, h1 env2 _ h2⟩

/-- Witness of C4: disconnecting a session record that was never initialized. -/
theorem TeeDisconnect_releases_and_idempotent_witness :
    to_int (some TEEHANDLE_ZERO) = none ∧
    TeeDisconnect envResponsive (some TEEHANDLE_ZERO) =
      { handle := some TEEHANDLE_ZERO, trace := [] } :=
  ⟨rfl, (TeeDisconnect_releases_and_idempotent envResponsive envResponsive
      (some TEEHANDLE_ZERO)).2.1 rfl⟩

/-- The copy of the client UUID in `TeeInit` cannot fail: source and destination are not
`NULL` and the destination has the size of the object copied. -/
theorem memcpy_s_uuid (dest u : GUID) :
    memcpy_s dest sizeof_GUID (some u) sizeof_GUID = (0, u) := by
  simp [memcpy_s, sizeof_GUID]

/-- What `TeeInit` returns when it reports `TEE_SUCCESS`: the block `malloc` handed out,
with the device handle and client UUID stored in it and its `evt` member as it was. -/
theorem TeeInit_success_shape (env : Env) (handle : Option TEEHANDLE) (uuid : Option UUID)
    (device : Option GUID) (hst : (TeeInit env handle uuid device).status = TEE_SUCCESS) :
    ∃ (g : METEE_WIN_IMPL) (dh : HANDLE) (u : UUID),
      env.malloc = some g ∧ uuid = some u ∧
      to_int (TeeInit env handle uuid device).handle =
        some { handle := dh, uuid := u, evt := g.evt } := by
  have hne : ∀ n : Nat, n ≠ 0 → n ≠ TEE_SUCCESS := fun n hn => hn
  cases uuid with
  | none =>
    cases handle <;>
      exact absurd (show TEE_INVALID_PARAMETER = TEE_SUCCESS from hst) (by decide)
  | some u =>
    cases handle with
    | none => exact absurd (show TEE_INVALID_PARAMETER = TEE_SUCCESS from hst) (by decide)
    | some h =>
      cases hm : env.malloc with
      | none =>
        simp only [TeeInit, hm] at hst
        exact absurd (show TEE_INTERNAL_ERROR = TEE_SUCCESS from hst) (by decide)
      | some g =>
        simp only [TeeInit, hm, memcpy_s_uuid] at hst ⊢
        split at hst
        · rename_i hpath
          exact absurd hst (hne _ hpath)
        · split at hst
          · exact absurd (show TEE_DEVICE_NOT_READY = TEE_SUCCESS from hst) (by decide)
          · rename_i hpath hopen
            rw [if_neg hpath, if_neg hopen]
            exact ⟨g, _, u, rfl, rfl, rfl⟩

/-- C5.  Every call of `TeeInit` that returns a status other than `TEE_SUCCESS` (missing
UUID, allocation failure, device-path resolution failure, device-open failure; the copy
of the UUID, made with pointers that are not `NULL` and a destination of the size
copied, does not fail) returns with the internal handle absent, for a session argument
that is not `NULL` as for a `NULL` one, so a following `TeeDisconnect` issues no call and
leaves the session as it is. -/
theorem TeeInit_failure_leaves_no_internal_handle (env env2 : Env)
    (handle : Option TEEHANDLE) (uuid : Option UUID) (device : Option GUID)
    (hst : (TeeInit env handle uuid device).status ≠ TEE_SUCCESS) :
    to_int (TeeInit env handle uuid device).handle = none ∧
    TeeDisconnect env2 (TeeInit env handle uuid device).handle =
      { handle := (TeeInit env handle uuid device).handle, trace := [] } := by
  have habsent : to_int (TeeInit env handle uuid device).handle = none := by
    cases uuid with
    | none => cases handle <;> rfl
    | some u =>
      cases handle with
      | none => rfl
      | some h =>
        cases hm : env.malloc with
        | none => simp only [TeeInit, hm]; rfl
        | some g =>
          simp only [TeeInit, hm, memcpy_s_uuid] at hst ⊢
          split
          · rfl
          · split
            · rfl
            · rename_i hpath hopen
              rw [if_neg hpath, if_neg hopen] at hst
              exact absurd rfl hst
  refine ⟨habsent, ?_⟩
  simp only [TeeDisconnect, habsent]

/-- Witness of C5: the device cannot be opened; `TeeInit` returns `TEE_DEVICE_NOT_READY`
and the session has no internal handle. -/
theorem TeeInit_failure_leaves_no_internal_handle_witness :
    (TeeInit envOpenFails (some TEEHANDLE_ZERO) (some 7) none).status =
      TEE_DEVICE_NOT_READY ∧
    to_int (TeeInit envOpenFails (some TEEHANDLE_ZERO) (some 7) none).handle = none ∧
    TeeDisconnect envResponsive
        (TeeInit envOpenFails (some TEEHANDLE_ZERO) (some 7) none).handle =
      { handle := (TeeInit envOpenFails (some TEEHANDLE_ZERO) (some 7) none).handle,
        trace := [] } :=
  ⟨rfl, TeeInit_failure_leaves_no_internal_handle envOpenFails envResponsive
    (some TEEHANDLE_ZERO) (some 7) none (by decide)⟩

/-- The statements under `Cleanup` of `TeeRead` and `TeeWrite` change nothing but the
pending-operation slot, which they leave absent. -/
theorem Io_Cleanup_fields (handle : Option TEEHANDLE) :
    (Io_Cleanup handle).map TEEHANDLE.maxMsgLen = handle.map TEEHANDLE.maxMsgLen ∧
    (Io_Cleanup handle).map TEEHANDLE.protcolVer = handle.map TEEHANDLE.protcolVer ∧
    (to_int (Io_Cleanup handle)).map METEE_WIN_IMPL.handle =
      (to_int handle).map METEE_WIN_IMPL.handle ∧
    (to_int (Io_Cleanup handle)).map METEE_WIN_IMPL.uuid =
      (to_int handle).map METEE_WIN_IMPL.uuid ∧
    (to_int (Io_Cleanup handle)).map METEE_WIN_IMPL.evt =
      (to_int handle).map (fun _ => none) := by
  cases handle with
  | none => exact ⟨rfl, rfl, rfl, rfl, rfl⟩
  | some h =>
    cases hh : h.handle with
    | none => simp [Io_Cleanup, to_int, hh]
    | some impl => simp [Io_Cleanup, to_int, hh, store_impl]

/-- With nothing pending, or no internal block, `Cleanup` leaves the session as it is. -/
theorem Io_Cleanup_of_nothing_pending (handle : Option TEEHANDLE)
    (hnone : ∀ impl, to_int handle = some impl → impl.evt = none) :
    Io_Cleanup handle = handle := by
  cases handle with
  | none => rfl
  | some h =>
    cases hh : h.handle with
    | none => simp [Io_Cleanup, to_int, hh]
    | some impl =>
      have he : impl.evt = none := hnone impl (by simp [to_int, hh])
      cases h with
      | mk hd m v =>
        cases impl with
        | mk a b c =>
          simp only at hh he
          subst hh he
          rfl

/-- Every return of `TeeRead` leaves the pending-operation slot absent. -/
theorem TeeRead_leaves_nothing_pending (env : Env) (handle : Option TEEHANDLE)
    (buffer : Buffer) (bufferSize : Nat) (p : Bool) (timeout : Nat) :
    (to_int (TeeRead env handle buffer bufferSize p timeout).handle).map METEE_WIN_IMPL.evt =
      (to_int handle).map (fun _ => none) := by
  by_cases hbad : buffer = none ∨ bufferSize = 0 ∨ to_int handle = none
  · rw [TeeRead_of_invalid env handle buffer bufferSize p timeout hbad]
    exact (Io_Cleanup_fields handle).2.2.2.2
  · have hb : buffer ≠ none := fun h => hbad (Or.inl h)
    have hs : bufferSize ≠ 0 := fun h => hbad (Or.inr (Or.inl h))
    cases hi : to_int handle with
    | none => exact absurd (Or.inr (Or.inr hi)) hbad
    | some impl =>
      by_cases hbegin : (env.BeginReadInternal impl.handle buffer (bufferSize % 2 ^ 32)).1 = 0
      · rw [TeeRead_of_begun env handle impl buffer bufferSize p timeout hi hb hs hbegin]
        have h := (Io_Cleanup_fields (store_impl handle { impl with
          evt := (env.BeginReadInternal impl.handle buffer (bufferSize % 2 ^ 32)).2 })).2.2.2.2
        rw [h]
        cases handle with
        | none => simp [to_int] at hi
        | some h0 => rfl
      · rw [TeeRead_of_begin_failed env handle impl buffer bufferSize p timeout hi hb hs
          hbegin]
        rw [(Io_Cleanup_fields handle).2.2.2.2, hi]

/-- Every return of `TeeWrite` leaves the pending-operation slot absent. -/
theorem TeeWrite_leaves_nothing_pending (env : Env) (handle : Option TEEHANDLE)
    (buffer : Buffer) (bufferSize : Nat) (p : Bool) (timeout : Nat) :
    (to_int (TeeWrite env handle buffer bufferSize p timeout).handle).map METEE_WIN_IMPL.evt =
      (to_int handle).map (fun _ => none) := by
  by_cases hbad : buffer = none ∨ bufferSize = 0 ∨ to_int handle = none
  · rw [TeeWrite_of_invalid env handle buffer bufferSize p timeout hbad]
    exact (Io_Cleanup_fields handle).2.2.2.2
  · have hb : buffer ≠ none := fun h => hbad (Or.inl h)
    have hs : bufferSize ≠ 0 := fun h => hbad (Or.inr (Or.inl h))
    cases hi : to_int handle with
    | none => exact absurd (Or.inr (Or.inr hi)) hbad
    | some impl =>
      by_cases hbegin : (env.BeginWriteInternal impl.handle buffer (bufferSize % 2 ^ 32)).1 = 0
      · rw [TeeWrite_of_begun env handle impl buffer bufferSize p timeout hi hb hs hbegin]
        have h := (Io_Cleanup_fields (store_impl handle { impl with
          evt := (env.BeginWriteInternal impl.handle buffer (bufferSize % 2 ^ 32)).2 })).2.2.2.2
        rw [h]
        cases handle with
        | none => simp [to_int] at hi
        | some h0 => rfl
      · rw [TeeWrite_of_begin_failed env handle impl buffer bufferSize p timeout hi hb hs
          hbegin]
        rw [(Io_Cleanup_fields handle).2.2.2.2, hi]

/-- C2, as stated, fails: on a session initialized by a successful `TeeInit` on which
`TeeConnect` was never called, `TeeRead` and `TeeWrite` of 16 bytes with a buffer do not
return `TEE_INVALID_PARAMETER`; they begin and complete the transfer on the buffer and
return `TEE_SUCCESS`. -/
theorem Tee_io_before_connect_counterexample :
    (TeeInit envResponsive (some TEEHANDLE_ZERO) (some 7) none).status = TEE_SUCCESS ∧
    (TeeRead envResponsive sessionAfterInit (some 4096) 16 true 1000).status = TEE_SUCCESS ∧
    (TeeRead envResponsive sessionAfterInit (some 4096) 16 true 1000).status ≠
      TEE_INVALID_PARAMETER ∧
    (TeeRead envResponsive sessionAfterInit (some 4096) 16 true 1000).trace =
      [OsCall.BeginReadInternal 5 (some 4096) 16, OsCall.EndReadInternal 5 (some 9) 1000] ∧
    (TeeWrite envResponsive sessionAfterInit (some 4096) 16 true 1000).status ≠
      TEE_INVALID_PARAMETER ∧
    (TeeWrite envResponsive sessionAfterInit (some 4096) 16 true 1000).trace =
      [OsCall.BeginWriteInternal 5 (some 4096) 16, OsCall.EndWriteInternal 5 (some 9) 1000] := by
  refine ⟨rfl, rfl, by decide, rfl, by decide, rfl⟩

/-- C2, amended.  On a session initialized by a successful `TeeInit` (that `TeeConnect`
has not succeeded on it plays no part), `TeeRead` and `TeeWrite` return
`TEE_INVALID_PARAMETER` and issue no call when the buffer is null or the size is 0;
with a buffer and a nonzero size they issue the begin call on the session's device
handle with that buffer, and return the status the begin step reports if it is nonzero,
else the one the completion step reports if it is nonzero, else `TEE_SUCCESS`. -/
theorem Tee_io_before_connect (env envIo : Env) (handle : Option TEEHANDLE)
    (uuid : Option UUID) (device : Option GUID) (buffer : Buffer) (bufferSize : Nat)
    (p : Bool) (timeout : Nat)
    (hinit : (TeeInit env handle uuid device).status = TEE_SUCCESS) :
    (buffer = none ∨ bufferSize = 0 →
      (TeeRead envIo (TeeInit env handle uuid device).handle buffer bufferSize p
        timeout).status = TEE_INVALID_PARAMETER ∧
      (TeeRead envIo (TeeInit env handle uuid device).handle buffer bufferSize p
        timeout).trace = [] ∧
      (TeeWrite envIo (TeeInit env handle uuid device).handle buffer bufferSize p
        timeout).status = TEE_INVALID_PARAMETER ∧
      (TeeWrite envIo (TeeInit env handle uuid device).handle buffer bufferSize p
        timeout).trace = []) ∧
    (buffer ≠ none → bufferSize ≠ 0 →
      ∃ impl : METEE_WIN_IMPL, to_int (TeeInit env handle uuid device).handle = some impl ∧
        (TeeRead envIo (TeeInit env handle uuid device).handle buffer bufferSize p
          timeout).trace.head? =
            some (OsCall.BeginReadInternal impl.handle buffer (bufferSize % 2 ^ 32)) ∧
        (TeeRead envIo (TeeInit env handle uuid device).handle buffer bufferSize p
          timeout).status =
            (if (envIo.BeginReadInternal impl.handle buffer (bufferSize % 2 ^ 32)).1 ≠ 0
             then (envIo.BeginReadInternal impl.handle buffer (bufferSize % 2 ^ 32)).1
             else if (envIo.EndReadInternal impl.handle
                (envIo.BeginReadInternal impl.handle buffer (bufferSize % 2 ^ 32)).2
                (if timeout = 0 then INFINITE else timeout)).1 ≠ 0
             then (envIo.EndReadInternal impl.handle
                (envIo.BeginReadInternal impl.handle buffer (bufferSize % 2 ^ 32)).2
                (if timeout = 0 then INFINITE else timeout)).1
             else TEE_SUCCESS) ∧
        (TeeWrite envIo (TeeInit env handle uuid device).handle buffer bufferSize p
          timeout).trace.head? =
            some (OsCall.BeginWriteInternal impl.handle buffer (bufferSize % 2 ^ 32)) ∧
        (TeeWrite envIo (TeeInit env handle uuid device).handle buffer bufferSize p
          timeout).status =
            (if (envIo.BeginWriteInternal impl.handle buffer (bufferSize % 2 ^ 32)).1 ≠ 0
             then (envIo.BeginWriteInternal impl.handle buffer (bufferSize % 2 ^ 32)).1
             else if (envIo.EndWriteInternal impl.handle
                (envIo.BeginWriteInternal impl.handle buffer (bufferSize % 2 ^ 32)).2
                (if timeout = 0 then INFINITE else timeout)).1 ≠ 0
             then (envIo.EndWriteInternal impl.handle
                (envIo.BeginWriteInternal impl.handle buffer (bufferSize % 2 ^ 32)).2
                (if timeout = 0 then INFINITE else timeout)).1
             else TEE_SUCCESS)) := by
  obtain ⟨g, dh, u, _, _, himpl⟩ := TeeInit_success_shape env handle uuid device hinit
  constructor
  · intro hbad
    have hbad3 : buffer = none ∨ bufferSize = 0 ∨
        to_int (TeeInit env handle uuid device).handle = none := by
      rcases hbad with h | h
      · exact Or.inl h
      · exact Or.inr (Or.inl h)
    rw [TeeRead_of_invalid envIo _ buffer bufferSize p timeout hbad3,
      TeeWrite_of_invalid envIo _ buffer bufferSize p timeout hbad3]
    exact ⟨rfl, rfl, rfl, rfl⟩
  · intro hb hs
    refine ⟨_, himpl, ?_⟩
    constructor
    · by_cases hbegin : (envIo.BeginReadInternal dh buffer (bufferSize % 2 ^ 32)).1 = 0
      · rw [TeeRead_of_begun envIo _ _ buffer bufferSize p timeout himpl hb hs hbegin]
        rfl
      · rw [TeeRead_of_begin_failed envIo _ _ buffer bufferSize p timeout himpl hb hs hbegin]
        rfl
    constructor
    · by_cases hbegin : (envIo.BeginReadInternal dh buffer (bufferSize % 2 ^ 32)).1 = 0
      · rw [TeeRead_of_begun envIo _ _ buffer bufferSize p timeout himpl hb hs hbegin]
        exact (if_neg (fun h => h hbegin)).symm
      · rw [TeeRead_of_begin_failed envIo _ _ buffer bufferSize p timeout himpl hb hs hbegin]
        exact (if_pos hbegin).symm
    constructor
    · by_cases hbegin : (envIo.BeginWriteInternal dh buffer (bufferSize % 2 ^ 32)).1 = 0
      · rw [TeeWrite_of_begun envIo _ _ buffer bufferSize p timeout himpl hb hs hbegin]
        rfl
      · rw [TeeWrite_of_begin_failed envIo _ _ buffer bufferSize p timeout himpl hb hs hbegin]
        rfl
    · by_cases hbegin : (envIo.BeginWriteInternal dh buffer (bufferSize % 2 ^ 32)).1 = 0
      · rw [TeeWrite_of_begun envIo _ _ buffer bufferSize p timeout himpl hb hs hbegin]
        exact (if_neg (fun h => h hbegin)).symm
      · rw [TeeWrite_of_begin_failed envIo _ _ buffer bufferSize p timeout himpl hb hs hbegin]
        exact (if_pos hbegin).symm

/-- Witness of the amended C2: after a successful `TeeInit`, a read with a null buffer is
refused without any call. -/
theorem Tee_io_before_connect_witness :
    (TeeInit envResponsive (some TEEHANDLE_ZERO) (some 7) none).status = TEE_SUCCESS ∧
    (TeeRead envResponsive (TeeInit envResponsive (some TEEHANDLE_ZERO) (some 7) none).handle
      none 16 true 1000).status = TEE_INVALID_PARAMETER ∧
    (TeeRead envResponsive (TeeInit envResponsive (some TEEHANDLE_ZERO) (some 7) none).handle
      none 16 true 1000).trace = [] :=
  ⟨rfl,
   ((Tee_io_before_connect envResponsive envResponsive (some TEEHANDLE_ZERO) (some 7) none
      none 16 true 1000 rfl).1 (Or.inl rfl)).1,
   ((Tee_io_before_connect envResponsive envResponsive (some TEEHANDLE_ZERO) (some 7) none
      none 16 true 1000 rfl).1 (Or.inl rfl)).2.1⟩

/-- C3, as stated, fails: on the session a successful `TeeInit` produced, whose
pending-operation slot still holds the bytes `malloc` handed out (57005), `TeeRead` and
`TeeWrite` with a null buffer return `TEE_INVALID_PARAMETER` and issue no call, but the
slot is absent afterwards: the session is not what it was before the call. -/
theorem Tee_io_validation_failure_counterexample :
    (to_int sessionAfterInit).map METEE_WIN_IMPL.evt = some (some 57005) ∧
    (TeeRead envResponsive sessionAfterInit none 16 true 0).status = TEE_INVALID_PARAMETER ∧
    (TeeRead envResponsive sessionAfterInit none 16 true 0).trace = [] ∧
    (to_int (TeeRead envResponsive sessionAfterInit none 16 true 0).handle).map
      METEE_WIN_IMPL.evt = some none ∧
    (TeeRead envResponsive sessionAfterInit none 16 true 0).handle ≠ sessionAfterInit ∧
    (to_int (TeeWrite envResponsive sessionAfterInit none 16 true 0).handle).map
      METEE_WIN_IMPL.evt = some none ∧
    (TeeWrite envResponsive sessionAfterInit none 16 true 0).handle ≠ sessionAfterInit := by
  refine ⟨rfl, rfl, rfl, rfl, by decide, rfl, by decide⟩

/-- C3, amended.  When the buffer is null, or `bufferSize` is 0, or the session is null
or has no internal handle, `TeeRead` and `TeeWrite` return `TEE_INVALID_PARAMETER`, issue
no call, and leave the device handle, the client UUID, `maxMsgLen` and `protcolVer` as
they were; the pending-operation slot is absent afterwards (the statements under
`Cleanup` clear it whenever the internal handle is present), so the whole session is as
before whenever the slot was absent already or there is no internal handle. -/
theorem Tee_io_validation_failure (env : Env) (handle : Option TEEHANDLE) (buffer : Buffer)
    (bufferSize : Nat) (p : Bool) (timeout : Nat)
    (hbad : buffer = none ∨ bufferSize = 0 ∨ to_int handle = none) :
    (TeeRead env handle buffer bufferSize p timeout).status = TEE_INVALID_PARAMETER ∧
    (TeeRead env handle buffer bufferSize p timeout).trace = [] ∧
    (TeeWrite env handle buffer bufferSize p timeout).status = TEE_INVALID_PARAMETER ∧
    (TeeWrite env handle buffer bufferSize p timeout).trace = [] ∧
    (TeeWrite env handle buffer bufferSize p timeout).handle =
      (TeeRead env handle buffer bufferSize p timeout).handle ∧
    (TeeRead env handle buffer bufferSize p timeout).handle.map TEEHANDLE.maxMsgLen =
      handle.map TEEHANDLE.maxMsgLen ∧
    (TeeRead env handle buffer bufferSize p timeout).handle.map TEEHANDLE.protcolVer =
      handle.map TEEHANDLE.protcolVer ∧
    (to_int (TeeRead env handle buffer bufferSize p timeout).handle).map
      METEE_WIN_IMPL.handle = (to_int handle).map METEE_WIN_IMPL.handle ∧
    (to_int (TeeRead env handle buffer bufferSize p timeout).handle).map
      METEE_WIN_IMPL.uuid = (to_int handle).map METEE_WIN_IMPL.uuid ∧
    (to_int (TeeRead env handle buffer bufferSize p timeout).handle).map
      METEE_WIN_IMPL.evt = (to_int handle).map (fun _ => none) ∧
    ((∀ impl, to_int handle = some impl → impl.evt = none) →
      (TeeRead env handle buffer bufferSize p timeout).handle = handle) := by
  rw [TeeRead_of_invalid env handle buffer bufferSize p timeout hbad,
    TeeWrite_of_invalid env handle buffer bufferSize p timeout hbad]
  obtain ⟨h1, h2, h3, h4, h5⟩ := Io_Cleanup_fields handle
  exact ⟨rfl, rfl, rfl, rfl, rfl, h1, h2, h3, h4, h5,
    Io_Cleanup_of_nothing_pending handle⟩

/-- Witness of the amended C3: a write of size 0 on an open session with nothing pending
is refused and leaves the session as it was. -/
theorem Tee_io_validation_failure_witness :
    (TeeWrite envResponsive (some sessionOpen) (some 4096) 0 true 0).status =
      TEE_INVALID_PARAMETER ∧
    (TeeRead envResponsive (some sessionOpen) (some 4096) 0 true 0).handle =
      some sessionOpen :=
  ⟨(Tee_io_validation_failure envResponsive (some sessionOpen) (some 4096) 0 true 0
      (Or.inr (Or.inl rfl))).2.2.1,
   (Tee_io_validation_failure envResponsive (some sessionOpen) (some 4096) 0 true 0
      (Or.inr (Or.inl rfl))).2.2.2.2.2.2.2.2.2.2 (by
        intro impl himpl
        cases himpl
        rfl)⟩

/-- C6, the code at the failing input: `TeeInit` never writes the `evt` member of the
block it got from `malloc`, so after a successful `TeeInit` the pending-operation slot
holds whatever the block held (here 57005), and `TeeDisconnect` on that session, with
no read or write in progress, waits on that token. -/
theorem TeeInit_leaves_pending_slot_unset :
    (TeeInit envResponsive (some TEEHANDLE_ZERO) (some 7) none).status = TEE_SUCCESS ∧
    (to_int (TeeInit envResponsive (some TEEHANDLE_ZERO) (some 7) none).handle).map
      METEE_WIN_IMPL.evt = some (some 57005) ∧
    (TeeDisconnect envResponsive
      (TeeInit envResponsive (some TEEHANDLE_ZERO) (some 7) none).handle).trace =
      [OsCall.CancelIo 5, OsCall.WaitForSingleObject (some 57005) 5000,
       OsCall.CloseHandle 5] := by
  refine ⟨rfl, rfl, rfl⟩

end MeTee
